import Mathlib

/-!
Verification of the delay-prediction core of the Project-Management analytics
add-on (`python_analysis/delay_predictor.py`, `data_loader.py`, `config.py`).

Shallow embedding conventions:
* pandas numeric cells are modelled as `Option ℚ` (`none` = NaN / null);
  exact rational arithmetic stands in for float arithmetic, since every
  claim is about exact formulas, thresholds and comparisons, not rounding.
* dataframes are lists of records; a left merge on a key is `List.find?`
  on that key (ids are assumed unique, as in the database schema).
* the fitted scikit-learn objects (StandardScaler, the two RandomForests)
  cannot be computed in the embedding; a fitted object is identified by the
  data it was fitted on, and its runtime behaviour (`transform`, `predict`,
  `predict_proba`) enters theorems as universally quantified function
  parameters.  Nothing any claim states depends on those numeric outputs
  except through the post-processing that the source applies to them,
  which is embedded exactly.
-/

/-- `config.py DELAY_THRESHOLDS`: the fixed day thresholds. -/
structure DelayThresholds where
  minor : ℚ
  major : ℚ
  critical : ℚ
deriving Repr, DecidableEq

/-- `config.py` lines 82-86: `{'minor': 1, 'major': 3, 'critical': 7}`. -/
def DELAY_THRESHOLDS : DelayThresholds :=
  { minor := 1, major := 3, critical := 7 }

/-- `config.py PREDICTION_FEATURES`: the ordered feature-name list. -/
def PREDICTION_FEATURES : List String :=
  [ "estimated_hours", "progress_ratio", "dependency_count", "team_size",
    "priority_numeric", "domain_complexity_score",
    "assignee_experience_score", "project_complexity_score",
    "task_complexity_score", "description_length", "title_length",
    "keyword_density", "technical_keywords_count", "sentiment_score",
    "sentiment_magnitude", "urgency_score", "risk_score",
    "historical_performance_score", "team_collaboration_score",
    "resource_availability_score", "time_pressure_score",
    "dependency_complexity", "communication_frequency", "change_frequency",
    "estimation_confidence", "skill_match_score", "workload_balance_score",
    "project_momentum", "external_dependency_risk",
    "technology_stack_familiarity", "deadline_proximity",
    "scope_creep_indicator", "quality_gate_requirements" ]

/-- The four labels of `pd.cut` in `create_delay_labels`. -/
inductive DelayCategory where
  | no_delay
  | minor_delay
  | major_delay
  | critical_delay
deriving Repr, DecidableEq

/-- `delay_predictor.py` lines 88-93: `pd.cut(delay_days, bins=[-inf, 1, 3, 7,
inf], labels=[...])` with pandas' default right-closed bins: a value lands in
the first bin whose right edge it does not exceed. -/
def delayCategory (d : ℚ) : DelayCategory :=
  if d ≤ DELAY_THRESHOLDS.minor then .no_delay
  else if d ≤ DELAY_THRESHOLDS.major then .minor_delay
  else if d ≤ DELAY_THRESHOLDS.critical then .major_delay
  else .critical_delay

/-- `data_loader.py` lines 258-260 (`_process_tasks_data`):
`min(row.get('actual_hours', 0) / max(row.get('estimated_hours', 1), 1), 2.0)`
per row.  When either cell is NaN the Python expression propagates NaN
(`min`/`max`/`/` on NaN yield NaN), modelled by `none`; when both are present
the denominator is `max(estimated_hours, 1)`, not `estimated_hours` itself. -/
def progress_ratio_calc (actual_hours estimated_hours : Option ℚ) : Option ℚ :=
  match actual_hours, estimated_hours with
  | some a, some e => some (min (a / max e 1) 2)
  | _, _ => none

/-- `np.clip` on a scalar. -/
def clip (x lo hi : ℚ) : ℚ := min (max x lo) hi

/-- `data_loader.py` lines 264-279 `_process_teams_data` input row: the raw
team record with its JSON-decoded member-id and skill lists. -/
structure TeamRaw where
  id : String
  name : String
  leader_id : String
  member_ids : List String
  skills : List String
deriving Repr, DecidableEq

/-- Processed team row: `team_size`/`skill_count` as produced by
`_process_teams_data` (lengths of the decoded lists). -/
structure TeamRec where
  id : String
  team_size : Option ℚ
  skill_count : Option ℚ
deriving Repr, DecidableEq

/-- `data_loader.py` lines 264-279: `team_size = len(member_ids)`,
`skill_count = len(skills)`. -/
def process_teams_data (t : TeamRaw) : TeamRec :=
  { id := t.id
    team_size := some ((t.member_ids).length : ℚ)
    skill_count := some ((t.skills).length : ℚ) }

/-- Processed user row as consumed by `prepare_features`
(`users_df[['id', 'role_numeric']]`); `role_numeric` is `none` when the
role is outside the `_process_users_data` mapping. -/
structure UserRec where
  id : String
  role_numeric : Option ℚ
deriving Repr, DecidableEq

/-- Processed project row as consumed by `prepare_features`
(`projects_df[['id', 'status_numeric', 'duration_days', 'domain_count']]`),
plus `team_id`, the project's team reference from the schema. -/
structure ProjectRec where
  id : String
  team_id : String
  status_numeric : Option ℚ
  duration_days : Option ℚ
  domain_count : Option ℚ
deriving Repr, DecidableEq

/-- Processed task row (output of `_process_tasks_data`) restricted to the
columns `prepare_features` and the label builder read. -/
structure TaskRec where
  id : String
  title : String
  status : String
  priority : String
  assignee_id : String
  project_id : String
  domain : String
  estimated_hours : Option ℚ
  actual_hours : Option ℚ
  dependency_count : Option ℚ
  priority_numeric : Option ℚ
  progress_ratio : Option ℚ
  delay_days : Option ℚ
deriving Repr, DecidableEq

/-- The `data` dictionary handed to `prepare_features` /
`analyze_project_risks` (processed frames, as `DataLoader` returns them). -/
structure Dataset where
  users : List UserRec
  projects : List ProjectRec
  tasks : List TaskRec
  teams : List TeamRec
deriving Repr, DecidableEq

/-- One row of the merged + engineered feature table built by
`prepare_features` before the missing-value fill. -/
structure FeatureRow where
  id : String
  title : String
  status : String
  priority : String
  assignee_id : String
  project_id : String
  domain : String
  estimated_hours : Option ℚ
  actual_hours : Option ℚ
  dependency_count : Option ℚ
  priority_numeric : Option ℚ
  progress_ratio : Option ℚ
  delay_days : Option ℚ
  role_numeric : Option ℚ
  status_numeric_project : Option ℚ
  duration_days : Option ℚ
  domain_count : Option ℚ
  team_size : Option ℚ
  skill_count : Option ℚ
  assignee_experience_score : Option ℚ
  project_complexity_score : Option ℚ
  domain_complexity_score : Option ℚ
deriving Repr, DecidableEq, Inhabited

/-- `delay_predictor.py` lines 58-62: the fixed domain→score lookup with
`.fillna(25)` for unknown domains. -/
def domainComplexityScore (d : String) : ℚ :=
  if d = "frontend" then 20
  else if d = "backend" then 30
  else if d = "mobile" then 35
  else if d = "testing" then 15
  else if d = "ui/ux" then 25
  else if d = "api" then 30
  else if d = "database" then 40
  else if d = "devops" then 45
  else 25

/-- `delay_predictor.py` lines 40-62: the three left merges and the
engineered columns.  Note the source's team merge (lines 48-50) joins with
`left_on='project_id', right_on='id'` — it looks a team up by the TASK'S
PROJECT ID, not by the project's `team_id`. -/
def mergeRow (users : List UserRec) (projects : List ProjectRec)
    (teams : List TeamRec) (t : TaskRec) : FeatureRow :=
  let u := users.find? (fun u => u.id = t.assignee_id)
  let p := projects.find? (fun p => p.id = t.project_id)
  let tm := teams.find? (fun tm => tm.id = t.project_id)
  let role := u.bind (fun u => u.role_numeric)
  let dur := p.bind (fun p => p.duration_days)
  let dc := p.bind (fun p => p.domain_count)
  { id := t.id, title := t.title, status := t.status, priority := t.priority
    assignee_id := t.assignee_id, project_id := t.project_id
    domain := t.domain
    estimated_hours := t.estimated_hours
    actual_hours := t.actual_hours
    dependency_count := t.dependency_count
    priority_numeric := t.priority_numeric
    progress_ratio := TaskRec.progress_ratio t
    delay_days := t.delay_days
    role_numeric := role
    status_numeric_project := p.bind (fun p => p.status_numeric)
    duration_days := dur
    domain_count := dc
    team_size := tm.bind (fun tm => tm.team_size)
    skill_count := tm.bind (fun tm => tm.skill_count)
    assignee_experience_score := role.map (fun r => r * 25)
    project_complexity_score :=
      some ((dur.getD 30) * (1 / 10) + (dc.getD 1) * 10)
    domain_complexity_score := some (domainComplexityScore t.domain) }

/-- Insertion into a sorted list (ascending). -/
def insertSorted (x : ℚ) : List ℚ → List ℚ
  | [] => [x]
  | y :: ys => if x ≤ y then x :: y :: ys else y :: insertSorted x ys

/-- Insertion sort, ascending. -/
def sortList (xs : List ℚ) : List ℚ := xs.foldr insertSorted []

/-- `pandas.Series.median()` with the default `skipna=True`, applied to the
non-null values: middle element of the sorted values, or the average of the
two middle elements; NaN (`none`) when there are no values at all. -/
def pandasMedian (xs : List ℚ) : Option ℚ :=
  if xs = [] then none
  else
    let s := sortList xs
    let n := s.length
    if n % 2 = 1 then some (s.getD (n / 2) 0)
    else some ((s.getD (n / 2 - 1) 0 + s.getD (n / 2) 0) / 2)

/-- `Series.fillna(median)` cellwise: a null cell takes the column median
(itself possibly NaN when the column is entirely null, in which case the
cell stays null). -/
def fillCell (m : Option ℚ) (v : Option ℚ) : Option ℚ :=
  v.orElse (fun _ => m)

/-- The rows of the merged feature table for a dataset
(`prepare_features` lines 40-62, before the fill loop). -/
def mergedRows (data : Dataset) : List FeatureRow :=
  data.tasks.map (mergeRow data.users data.projects data.teams)

/-- `delay_predictor.py` lines 64-83 (`prepare_features`): the merged table
with each of the eight canonical numeric columns filled by its own batch
median (`fillna(median)`).  With `DataLoader`-shaped input all eight columns
exist, so only the `if col in features_df.columns` branch of the source's
loop runs; each column is filled with the median of its own pre-loop values
(the loop iterations touch disjoint columns, so sequential = columnwise). -/
def prepare_features (data : Dataset) : List FeatureRow :=
  let merged := mergedRows data
  let mEst := pandasMedian (merged.filterMap (fun r => r.estimated_hours))
  let mProg := pandasMedian
    (merged.filterMap (fun r => FeatureRow.progress_ratio r))
  let mDep := pandasMedian (merged.filterMap (fun r => r.dependency_count))
  let mTeam := pandasMedian (merged.filterMap (fun r => r.team_size))
  let mPrio := pandasMedian (merged.filterMap (fun r => r.priority_numeric))
  let mDom := pandasMedian
    (merged.filterMap (fun r => r.domain_complexity_score))
  let mAssig := pandasMedian
    (merged.filterMap (fun r => r.assignee_experience_score))
  let mProj := pandasMedian
    (merged.filterMap (fun r => r.project_complexity_score))
  merged.map (fun r =>
    { r with
      estimated_hours := fillCell mEst r.estimated_hours
      progress_ratio := fillCell mProg (FeatureRow.progress_ratio r)
      dependency_count := fillCell mDep r.dependency_count
      team_size := fillCell mTeam r.team_size
      priority_numeric := fillCell mPrio r.priority_numeric
      domain_complexity_score := fillCell mDom r.domain_complexity_score
      assignee_experience_score := fillCell mAssig r.assignee_experience_score
      project_complexity_score := fillCell mProj r.project_complexity_score })

/-- One row of the labeled feature table (`create_delay_labels` output). -/
structure LabeledRow where
  row : FeatureRow
  delay_category : DelayCategory
  is_delayed : ℚ
  risk_score : Option ℚ
deriving Repr, DecidableEq

/-- `delay_predictor.py` lines 99-104: the label-time risk score
`np.clip(delay_days.fillna(0)*10 + priority_numeric*15 +
(100 - progress_ratio*50), 0, 100)`.  Only `delay_days` is `fillna`-ed:
a NaN `priority_numeric` or `progress_ratio` propagates to a NaN score. -/
def riskScoreLabel (delay prio prog : Option ℚ) : Option ℚ :=
  match prio, prog with
  | some p, some g => some (clip ((delay.getD 0) * 10 + p * 15 + (100 - g * 50)) 0 100)
  | _, _ => none

/-- `delay_predictor.py` lines 85-106 (`create_delay_labels`):
`delay_category = pd.cut(delay_days.fillna(0), ...)`,
`is_delayed = (delay_days.fillna(0) > 0).astype(int)`, and the risk score. -/
def create_delay_labels (rows : List FeatureRow) : List LabeledRow :=
  rows.map (fun r =>
    { row := r
      delay_category := delayCategory ((r.delay_days).getD 0)
      is_delayed := if (r.delay_days).getD 0 > 0 then 1 else 0
      risk_score := riskScoreLabel r.delay_days r.priority_numeric
        (FeatureRow.progress_ratio r) })

/-- pandas boolean comparison of a possibly-null cell against a scalar:
`NaN > c` is `False`. -/
def optGT (v : Option ℚ) (c : ℚ) : Bool :=
  match v with
  | some x => decide (c < x)
  | none => false

/-- `delay_predictor.py` line 242:
`len(features_df[features_df['risk_score'] > 70])`. -/
def high_risk_tasks (rows : List LabeledRow) : Nat :=
  (rows.filter (fun r => optGT r.risk_score 70)).length

/-- `delay_predictor.py` lines 249-252: the critical-task filter
`(risk_score > 60) | (delay_days > DELAY_THRESHOLDS['major'])` — note the
source uses the `'major'` threshold (3 days), not `'critical'` (7). -/
def critical_tasks (rows : List LabeledRow) : List LabeledRow :=
  rows.filter (fun r =>
    optGT r.risk_score 60 ||
    optGT ((LabeledRow.row r).delay_days) DELAY_THRESHOLDS.major)

/-- The parts of the `analyze_project_risks` result dictionary that the
claims reference (the group-by means and the status histogram of lines
243-245 are presentation fields no claim mentions and are omitted). -/
structure RiskAnalysis where
  total_tasks : Nat
  delayed_tasks : Nat
  high_risk : Nat
  critical : List LabeledRow
deriving Repr, DecidableEq

/-- `delay_predictor.py` lines 221-256 (`analyze_project_risks`): scope to a
project when an id is given, report `none` (the `"No tasks found"` error
dict) on an empty scope, else aggregate over the labeled feature table. -/
def analyze_project_risks (data : Dataset) (project_id : Option String) :
    Option RiskAnalysis :=
  let tasks :=
    match project_id with
    | some pid => data.tasks.filter (fun t => t.project_id = pid)
    | none => data.tasks
  if tasks = [] then none
  else
    let features0 := create_delay_labels (prepare_features data)
    let features :=
      match project_id with
      | some pid =>
        features0.filter (fun r => (LabeledRow.row r).project_id = pid)
      | none => features0
    some { total_tasks := features.length
           delayed_tasks := (features.filter (fun r => r.is_delayed = 1)).length
           high_risk := high_risk_tasks features
           critical := critical_tasks features }

/-- The column set of the labeled feature table built from
`DataLoader`-shaped input (the merge output plus the engineered and label
columns).  Raw columns that are never members of `PREDICTION_FEATURES`
(dates, description, …) are irrelevant to the `available_features`
intersection and not listed. -/
def tableColumns : List String :=
  [ "id", "title", "status", "priority", "assignee_id", "project_id",
    "domain", "estimated_hours", "actual_hours", "dependency_count",
    "priority_numeric", "progress_ratio", "delay_days", "role_numeric",
    "status_numeric_project", "duration_days", "domain_count", "team_size",
    "skill_count", "assignee_experience_score", "project_complexity_score",
    "domain_complexity_score", "delay_category", "is_delayed", "risk_score" ]

/-- `delay_predictor.py` line 115: `[col for col in PREDICTION_FEATURES if
col in features_df.columns]`. -/
def available_features : List String :=
  PREDICTION_FEATURES.filter (fun c => tableColumns.contains c)

/-- Numeric column access on a labeled row by column name, for
`features_df[self.feature_columns]`. -/
def numericCol (c : String) (r : LabeledRow) : Option ℚ :=
  if c = "estimated_hours" then (LabeledRow.row r).estimated_hours
  else if c = "progress_ratio" then FeatureRow.progress_ratio (LabeledRow.row r)
  else if c = "dependency_count" then (LabeledRow.row r).dependency_count
  else if c = "team_size" then (LabeledRow.row r).team_size
  else if c = "priority_numeric" then (LabeledRow.row r).priority_numeric
  else if c = "domain_complexity_score" then
    (LabeledRow.row r).domain_complexity_score
  else if c = "assignee_experience_score" then
    (LabeledRow.row r).assignee_experience_score
  else if c = "project_complexity_score" then
    (LabeledRow.row r).project_complexity_score
  else if c = "risk_score" then r.risk_score
  else if c = "delay_days" then (LabeledRow.row r).delay_days
  else none

/-- `delay_predictor.py` line 122: `features_df[self.feature_columns]
.fillna(0)`, one row. -/
def rowVector (cols : List String) (r : LabeledRow) : List ℚ :=
  cols.map (fun c => (numericCol c r).getD 0)

/-- The mutable state of a `DelayPredictor` instance.  A fitted
scikit-learn object cannot be computed here; it is identified by the data
it was fitted on (`scaler_fit` = the matrix the `StandardScaler` was fit
on, `duration_fit`/`classifier_fit` = the (scaled matrix, targets) pairs
the two forests were fit on), and its runtime behaviour enters theorems as
function parameters. -/
structure TrainerState where
  feature_columns : List String
  is_trained : Bool
  scaler_fit : Option (List (List ℚ))
  duration_fit : Option (List (List ℚ) × List ℚ)
  classifier_fit : Option (List (List ℚ) × List DelayCategory)
deriving Repr, DecidableEq

/-- `DelayPredictor.__init__`: `feature_columns = []`, `is_trained =
False`, nothing fitted. -/
def initState : TrainerState :=
  { feature_columns := [], is_trained := false, scaler_fit := none,
    duration_fit := none, classifier_fit := none }

def msgNoValidFeatures : String := "No valid features available"

def msgInsufficientData : String := "Insufficient training data"

def msgNotTrained : String := "Model not trained yet"

/-- `train_models` outcome: either one of the error dictionaries or the
success dictionary (the RMSE and feature-importance entries are outputs of
the fitted forests and are abstracted away). -/
inductive TrainResult where
  | error (msg : String)
  | ok (training_samples test_samples : Nat) (features_used : List String)
deriving Repr, DecidableEq

/-- `delay_predictor.py` lines 108-174 (`train_models`), with the seeded
`train_test_split` shuffle supplied as `splitIdx` (row count → (train
indices, test indices)) and the scaler's `fit_transform`/`transform`
behaviour supplied as `stf` (fit matrix → row → scaled row).  Note the
source assigns `self.feature_columns = available_features` (line 116)
BEFORE either early-error return. -/
def train_models (stf : List (List ℚ) → List ℚ → List ℚ)
    (splitIdx : Nat → List Nat × List Nat)
    (st : TrainerState) (data : Dataset) : TrainerState × TrainResult :=
  let features := create_delay_labels (prepare_features data)
  let available := PREDICTION_FEATURES.filter (fun c => tableColumns.contains c)
  let st1 := { st with feature_columns := available }
  if available = [] then
    (st1, TrainResult.error msgNoValidFeatures)
  else
    let X := features.map (rowVector available)
    let y_delay_days :=
      features.map (fun r => (((LabeledRow.row r).delay_days)).getD 0)
    let y_delay_category := features.map (fun r => r.delay_category)
    if X.length < 10 then
      (st1, TrainResult.error msgInsufficientData)
    else
      let p := splitIdx X.length
      let X_train := (p.1).filterMap (fun i => X.get? i)
      let X_train_scaled := X_train.map (stf X_train)
      let y_train := (p.1).filterMap (fun i => y_delay_days.get? i)
      let y_cat_train := (p.1).filterMap (fun i => y_delay_category.get? i)
      let st2 := { st1 with
        is_trained := true
        scaler_fit := some X_train
        duration_fit := some (X_train_scaled, y_train)
        classifier_fit := some (X_train_scaled, y_cat_train) }
      (st2, TrainResult.ok (p.1).length (p.2).length available)

/-- The prediction dictionary returned by `predict_task_delay`. -/
structure Prediction where
  predicted_delay_days : ℚ
  predicted_category : DelayCategory
  risk_score : ℚ
  category_probabilities : List (DelayCategory × ℚ)
  recommendation : String
deriving Repr, DecidableEq

/-- `predict_task_delay` outcome: the not-trained error dict or the
prediction dict. -/
inductive PredictOutcome where
  | error (msg : String)
  | ok (p : Prediction)
deriving Repr, DecidableEq

/-- `delay_predictor.py` lines 188-197: the literal default-value table for
features missing from the input dictionary. -/
def default_values : List (String × ℚ) :=
  [ ("estimated_hours", 24), ("progress_ratio", 1 / 2),
    ("dependency_count", 0), ("team_size", 3), ("priority_numeric", 2),
    ("domain_complexity_score", 25), ("assignee_experience_score", 50),
    ("project_complexity_score", 30) ]

/-- Python dict lookup on an association list. -/
def lookupQ (k : String) : List (String × ℚ) → Option ℚ
  | [] => none
  | kv :: rest => if kv.1 = k then some kv.2 else lookupQ k rest

/-- `delay_predictor.py` lines 183-198: `task_data[feature]` when present,
else `default_values.get(feature, 0)`. -/
def featureValue (task_data : List (String × ℚ)) (f : String) : ℚ :=
  match lookupQ f task_data with
  | some v => v
  | none => (lookupQ f default_values).getD 0

def riskScoreName : String := "risk_score"

/-- `delay_predictor.py` lines 281-292 (`_get_recommendation`). -/
def get_recommendation (risk delay_days : ℚ) : String :=
  if risk > 80 then
    "Critical: Immediate intervention required. Consider reassigning resources or extending deadline."
  else if risk > 60 then
    "High Risk: Close monitoring needed. Review task dependencies and resource allocation."
  else if risk > 40 then
    "Medium Risk: Regular check-ins recommended. Consider preventive measures."
  else if delay_days > 0 then
    "Low Risk: Minor delays expected. Standard monitoring sufficient."
  else
    "On Track: Task progressing normally. Continue current approach."

/-- `delay_predictor.py` lines 176-219 (`predict_task_delay`): early error
when untrained; else assemble the feature vector with defaults, scale it
with the persisted scaler (its `transform` behaviour is the `stf`
parameter; the method never calls `fit`), query the two fitted estimators
(`reg`, `cls`, `clsProba` parameters), and post-process.  Note
`risk_score` is computed from the RAW regressor output while the returned
`predicted_delay_days` is clamped at 0, and the recommendation receives
the raw value.  The method assigns no instance field, so the state passes
through unchanged. -/
def predict_task_delay (stf : List (List ℚ) → List ℚ → List ℚ)
    (reg : List ℚ → ℚ) (cls : List ℚ → DelayCategory)
    (clsProba : List ℚ → List (DelayCategory × ℚ))
    (st : TrainerState) (task_data : List (String × ℚ)) :
    TrainerState × PredictOutcome :=
  match st.is_trained with
  | false => (st, PredictOutcome.error msgNotTrained)
  | true =>
    let features := st.feature_columns.map (featureValue task_data)
    let features_scaled := stf ((st.scaler_fit).getD []) features
    let raw_delay := reg features_scaled
    let risk := min (max (raw_delay * 15) 0) 100
    (st, PredictOutcome.ok
      { predicted_delay_days := max 0 raw_delay
        predicted_category := cls features_scaled
        risk_score := risk
        category_probabilities := clsProba features_scaled
        recommendation := get_recommendation risk raw_delay })

/-- A trained-state witness value (what a successful 1-column fit could
leave behind). -/
def trainedState : TrainerState :=
  { feature_columns := available_features, is_trained := true,
    scaler_fit := some [[0]], duration_fit := some ([[0]], [0]),
    classifier_fit := some ([[0]], [DelayCategory.no_delay]) }

/-- The repository's own mock team (`data_loader.py` lines 371-378), raw. -/
def team1raw : TeamRaw :=
  { id := "team1", name := "Development Team Alpha", leader_id := "usr3",
    member_ids := ["usr4", "usr5"],
    skills := ["React", "Node.js", "TypeScript", "UI/UX", "Testing"] }

/-- Processed project shaped like the repository's mock `proj1`: it
references team `team1`. -/
def proj1C1 : ProjectRec :=
  { id := "proj1", team_id := "team1", status_numeric := some 2,
    duration_days := some 120, domain_count := some 3 }

def usr4C1 : UserRec := { id := "usr4", role_numeric := some 1 }

def task1C1 : TaskRec :=
  { id := "task1", title := "User Authentication System",
    status := "in_progress", priority := "high", assignee_id := "usr4",
    project_id := "proj1", domain := "backend",
    estimated_hours := some 40, actual_hours := some 10,
    dependency_count := some 0, priority_numeric := some 3,
    progress_ratio := some (1 / 4), delay_days := some 0 }

/-- One-task dataset in which the project references a team but, as in the
repository's own mock fixtures, no team id coincides with a project id. -/
def dataC1 : Dataset :=
  { users := [usr4C1], projects := [proj1C1], tasks := [task1C1],
    teams := [process_teams_data team1raw] }

/-- A second task for the two-row dataset: null `estimated_hours`. -/
def task2C3 : TaskRec :=
  { id := "task2", title := "Payment Gateway Integration",
    status := "todo", priority := "low", assignee_id := "usr4",
    project_id := "proj1", domain := "frontend",
    estimated_hours := none, actual_hours := none,
    dependency_count := some 1, priority_numeric := some 1,
    progress_ratio := none, delay_days := some 2 }

/-- Two-task dataset: the `team_size`/`skill_count` columns come out of the
merge entirely null (no team id equals the project id), while
`estimated_hours` has one null cell and one value. -/
def dataC3 : Dataset :=
  { users := [usr4C1], projects := [proj1C1], tasks := [task1C1, task2C3],
    teams := [process_teams_data team1raw] }

/-- "column has at least one non-null value" for a getter. -/
def colHasVal (get : FeatureRow → Option ℚ) (rows : List FeatureRow) : Prop :=
  ∃ r ∈ rows, (get r).isSome = true

/-- Feature row for the C2 counterexample: a task 4 days late, low
priority, progress ratio at the 2.0 cap. -/
def rowC2 : FeatureRow :=
  { id := "task9", title := "Database Optimization", status := "completed",
    priority := "low", assignee_id := "usr4", project_id := "proj1",
    domain := "backend", estimated_hours := some 8, actual_hours := some 20,
    dependency_count := some 0, priority_numeric := some 1,
    progress_ratio := some 2, delay_days := some 4, role_numeric := some 1,
    status_numeric_project := some 2, duration_days := some 120,
    domain_count := some 3, team_size := some 2, skill_count := some 5,
    assignee_experience_score := some 25,
    project_complexity_score := some 42, domain_complexity_score := some 30 }

/-- A fully-populated task used to build a 10-row training set. -/
def taskW : TaskRec :=
  { id := "t", title := "Task", status := "todo", priority := "medium",
    assignee_id := "usr4", project_id := "proj1", domain := "backend",
    estimated_hours := some 40, actual_hours := some 10,
    dependency_count := some 0, priority_numeric := some 2,
    progress_ratio := some (1 / 4), delay_days := some 0 }

/-- Ten-task dataset on which `train_models` succeeds. -/
def dataC10 : Dataset :=
  { users := [usr4C1], projects := [proj1C1],
    tasks := List.replicate 10 taskW,
    teams := [process_teams_data team1raw] }

/-- Claim C5 — `delay_category` bucketing: `pd.cut` with bins
`[-inf, 1, 3, 7, inf]` gives the left-open/right-closed intervals
`(-inf,1] → no_delay`, `(1,3] → minor_delay`, `(3,7] → major_delay`,
`(7,inf) → critical_delay`; a value exactly at a threshold falls into the
lower bucket; and `create_delay_labels` computes `delay_category` as this
pure function of (null-filled) `delay_days`.  Confirmed. -/
theorem C5_delay_category_buckets :
    (∀ d : ℚ,
      (delayCategory d = DelayCategory.no_delay ↔ d ≤ 1) ∧
      (delayCategory d = DelayCategory.minor_delay ↔ 1 < d ∧ d ≤ 3) ∧
      (delayCategory d = DelayCategory.major_delay ↔ 3 < d ∧ d ≤ 7) ∧
      (delayCategory d = DelayCategory.critical_delay ↔ 7 < d)) ∧
    delayCategory 1 = DelayCategory.no_delay ∧
    delayCategory 3 = DelayCategory.minor_delay ∧
    delayCategory 7 = DelayCategory.major_delay ∧
    (∀ rows : List FeatureRow,
      (create_delay_labels rows).map (fun r => r.delay_category) =
        rows.map (fun r => delayCategory ((r.delay_days).getD 0))) := by
  refine ⟨fun d => ?_, by decide, by decide, by decide, fun rows => ?_⟩
  · unfold delayCategory DELAY_THRESHOLDS
    dsimp only
    split_ifs with h1 h2 h3 <;>
      refine ⟨?_, ?_, ?_, ?_⟩ <;>
        simp only [reduceCtorEq, eq_self_iff_true, false_iff, true_iff,
          not_and, not_lt, not_le] <;>
        first
        | linarith
        | (intro hh; linarith)
        | (constructor <;> linarith)
  · simp [create_delay_labels]

/-- Claim C4, counterexample: with `actual_hours = 1` and
`estimated_hours = 1/2` both present, the code computes
`min(1 / max(1/2, 1), 2) = 1`, while the claimed formula
`min(actual/estimated, 2)` gives `2`. -/
theorem C4_counterexample :
    progress_ratio_calc (some 1) (some (1 / 2)) = some 1 ∧
    min ((1 : ℚ) / (1 / 2)) 2 = 2 ∧
    progress_ratio_calc (some 1) (some (1 / 2)) ≠
      some (min ((1 : ℚ) / (1 / 2)) 2) := by
  refine ⟨?_, by norm_num, ?_⟩ <;> · simp [progress_ratio_calc]; norm_num

/-- Claim C4, amended: when both hours are present the derived
`progress_ratio` equals `min(actual / max(estimated, 1), 2)`; it equals the
claimed `min(actual/estimated, 2)` whenever `estimated_hours ≥ 1`; and it
never exceeds `2`. -/
theorem C4_progress_ratio_amended (a e : ℚ) :
    progress_ratio_calc (some a) (some e) = some (min (a / max e 1) 2) ∧
    (1 ≤ e → progress_ratio_calc (some a) (some e) = some (min (a / e) 2)) ∧
    (∀ v : ℚ, progress_ratio_calc (some a) (some e) = some v → v ≤ 2) := by
  refine ⟨rfl, fun h => ?_, fun v hv => ?_⟩
  · simp [progress_ratio_calc, max_eq_left h]
  · simp only [progress_ratio_calc, Option.some.injEq] at hv
    simp [← hv]

/-- Witness for `C4_progress_ratio_amended` at `a = 3`, `e = 2`. -/
theorem C4_progress_ratio_amended_witness :
    progress_ratio_calc (some 3) (some 2) = some (min ((3 : ℚ) / 2) 2) :=
  (C4_progress_ratio_amended 3 2).2.1 (by norm_num)

/-- `pandas` median of a nonempty value list is a value. -/
theorem pandasMedian_isSome (xs : List ℚ) (h : xs ≠ []) :
    (pandasMedian xs).isSome = true := by
  simp only [pandasMedian, h, if_false]
  split <;> rfl

/-- A cell filled against a non-NaN median is non-null. -/
theorem fillCell_isSome (m v : Option ℚ) (hm : m.isSome = true) :
    (fillCell m v).isSome = true := by
  cases v
  · exact hm
  · rfl

/-- A column with at least one value has a non-NaN median. -/
theorem median_of_col_isSome (get : FeatureRow → Option ℚ)
    (rows : List FeatureRow) (h : colHasVal get rows) :
    (pandasMedian (rows.filterMap get)).isSome = true := by
  obtain ⟨r, hr, hs⟩ := h
  obtain ⟨v, hv⟩ := Option.isSome_iff_exists.mp hs
  exact pandasMedian_isSome _
    (List.ne_nil_of_mem (List.mem_filterMap.mpr ⟨r, hr, hv⟩))

/-- pandas `series > c` on a cell, as a proposition. -/
theorem optGT_iff (v : Option ℚ) (c : ℚ) :
    optGT v c = true ↔ ∃ x, v = some x ∧ c < x := by
  cases v <;> simp [optGT]

/-- Claim C1 — in `prepare_features`, the task-to-team join does NOT
resolve through the task's project to the project's team record: the source
merges `teams_df` with `left_on='project_id', right_on='id'`, i.e. it looks
a team up by the task's project id.  Here project `proj1` references team
`team1` (whose processed record carries `team_size = 2`, `skill_count = 5`),
yet the feature row built for its task carries null `team_size` and
`skill_count`, because no team has id `proj1`.  The claim's reading is the
evident intent (the repository's own mock fixtures give teams ids disjoint
from project ids, so the shipped join can never match); the code is the
slip. -/
theorem C1_team_join_bug :
    ProjectRec.team_id proj1C1 = TeamRec.id (process_teams_data team1raw) ∧
    TeamRec.team_size (process_teams_data team1raw) = some 2 ∧
    TeamRec.skill_count (process_teams_data team1raw) = some 5 ∧
    (prepare_features dataC1).map (fun r => r.team_size) = [none] ∧
    (prepare_features dataC1).map (fun r => r.skill_count) = [none] := by
  decide

/-- Claim C2, counterexample: a completed task 4 days late with low
priority and capped progress gets label-time `risk_score = 55`; the code
lists it among `critical_tasks` (because `delay_days > 3`, the `'major'`
threshold), although the claimed membership condition
`risk_score > 60 OR delay_days > 7` is false for it. -/
theorem C2_counterexample :
    (critical_tasks (create_delay_labels [rowC2])).map
      (fun r => (LabeledRow.row r).id) = ["task9"] ∧
    (create_delay_labels [rowC2]).map
      (fun r => (LabeledRow.row r).id) = ["task9"] ∧
    (create_delay_labels [rowC2]).map (fun r => r.risk_score) = [some 55] ∧
    (create_delay_labels [rowC2]).map
      (fun r => (LabeledRow.row r).delay_days) = [some 4] ∧
    ¬ (60 < (55 : ℚ) ∨ 7 < (4 : ℚ)) := by
  have hval : riskScoreLabel (some 4) (some 1) (some 2) = some 55 := by
    unfold riskScoreLabel clip
    norm_num
  refine ⟨?_, rfl, ?_, rfl, by norm_num⟩
  · norm_num [critical_tasks, create_delay_labels, rowC2, hval, optGT,
      DELAY_THRESHOLDS]
  · simp [create_delay_labels, rowC2, hval]

/-- Claim C2, amended: `critical_tasks` contains exactly the rows with
`risk_score > 60` or `delay_days > 3` (the `'major'` threshold of
`DELAY_THRESHOLDS`, not 7), under pandas comparison semantics (a null cell
compares false); `high_risk_tasks` counts exactly the rows with
`risk_score > 70`. -/
theorem C2_critical_tasks_amended (rows : List LabeledRow) :
    (∀ r : LabeledRow, r ∈ critical_tasks rows ↔
      r ∈ rows ∧
        ((∃ x, r.risk_score = some x ∧ 60 < x) ∨
         (∃ d, (LabeledRow.row r).delay_days = some d ∧
            DELAY_THRESHOLDS.major < d))) ∧
    high_risk_tasks rows = rows.countP (fun r => optGT r.risk_score 70) ∧
    (∀ r : LabeledRow, optGT r.risk_score 70 = true ↔
      ∃ x, r.risk_score = some x ∧ 70 < x) := by
  refine ⟨fun r => ?_, ?_, fun r => optGT_iff _ _⟩
  · rw [critical_tasks, List.mem_filter]
    simp [optGT_iff]
  · rw [high_risk_tasks, List.countP_eq_length_filter]

/-- Claim C3, counterexample: on a two-task dataset whose `team_size` and
`skill_count` columns come out of the merge entirely null (no team id
equals the project id, as in the repository's own fixtures), the table
returned by `prepare_features` still has null cells in those canonical
columns — `fillna(median)` of an all-null column fills with NaN.  The
partially-null `estimated_hours` column, by contrast, is fully filled. -/
theorem C3_counterexample :
    (prepare_features dataC3).map (fun r => r.team_size) = [none, none] ∧
    (prepare_features dataC3).map (fun r => r.skill_count) = [none, none] ∧
    (prepare_features dataC3).map (fun r => r.estimated_hours) =
      [some 40, some 40] ∧
    dataC3.teams ≠ [] := by
  decide

/-- Claim C3, amended: in the table returned by `prepare_features`, a
canonical feature column is free of nulls whenever it enters the fill step
with at least one non-null value; nulls can survive only in a column that
is entirely null (its batch median is NaN, and `fillna(NaN)` is the
identity). -/
theorem C3_fill_amended (data : Dataset) :
    (colHasVal (fun r => r.estimated_hours) (mergedRows data) →
      ∀ r ∈ prepare_features data,
        (FeatureRow.estimated_hours r).isSome = true) ∧
    (colHasVal (fun r => FeatureRow.progress_ratio r) (mergedRows data) →
      ∀ r ∈ prepare_features data,
        (FeatureRow.progress_ratio r).isSome = true) ∧
    (colHasVal (fun r => r.dependency_count) (mergedRows data) →
      ∀ r ∈ prepare_features data,
        (FeatureRow.dependency_count r).isSome = true) ∧
    (colHasVal (fun r => r.team_size) (mergedRows data) →
      ∀ r ∈ prepare_features data, (FeatureRow.team_size r).isSome = true) ∧
    (colHasVal (fun r => r.priority_numeric) (mergedRows data) →
      ∀ r ∈ prepare_features data,
        (FeatureRow.priority_numeric r).isSome = true) ∧
    (colHasVal (fun r => r.domain_complexity_score) (mergedRows data) →
      ∀ r ∈ prepare_features data,
        (FeatureRow.domain_complexity_score r).isSome = true) ∧
    (colHasVal (fun r => r.assignee_experience_score) (mergedRows data) →
      ∀ r ∈ prepare_features data,
        (FeatureRow.assignee_experience_score r).isSome = true) ∧
    (colHasVal (fun r => r.project_complexity_score) (mergedRows data) →
      ∀ r ∈ prepare_features data,
        (FeatureRow.project_complexity_score r).isSome = true) := by
  refine ⟨?_, ?_, ?_, ?_, ?_, ?_, ?_, ?_⟩ <;>
  · intro h r' hr'
    simp only [prepare_features, List.mem_map] at hr'
    obtain ⟨r0, hr0, rfl⟩ := hr'
    exact fillCell_isSome _ _ (median_of_col_isSome _ _ h)

/-- Witness for `C3_fill_amended`: the `estimated_hours` column of the
concrete dataset has a value, so every output cell of that column is
non-null. -/
theorem C3_fill_amended_witness :
    ((prepare_features dataC3).all
      (fun r => (FeatureRow.estimated_hours r).isSome)) = true :=
  List.all_eq_true.mpr
    ((C3_fill_amended dataC3).1
      ⟨mergeRow dataC3.users dataC3.projects dataC3.teams task1C1,
        List.mem_map.mpr ⟨task1C1, List.mem_cons_self _ _, rfl⟩, rfl⟩)

/-- Claim C6, counterexample: on a 2-row dataset, `train_models` does
return the structured insufficient-data error without raising, but the
trainer's state is NOT unchanged — `self.feature_columns` was overwritten
(line 116) before the early return, so the state differs from the initial
state it started in. -/
theorem C6_counterexample :
    (train_models (fun _ v => v) (fun _ => ([], []))
      initState dataC3).2 = TrainResult.error msgInsufficientData ∧
    (train_models (fun _ v => v) (fun _ => ([], []))
      initState dataC3).1 ≠ initState := by
  decide

/-- Claim C6, amended: with fewer than 10 rows (the feature-column
selection over this schema is never empty), `train_models` returns the
structured insufficient-data error rather than raising, and leaves
`is_trained` (hence still `false` if it was), the scaler and both
estimators untouched — but it does overwrite `feature_columns` with the
freshly selected list before the early return. -/
theorem C6_insufficient_data_amended
    (stf : List (List ℚ) → List ℚ → List ℚ)
    (splitIdx : Nat → List Nat × List Nat)
    (st : TrainerState) (data : Dataset)
    (h : data.tasks.length < 10) :
    train_models stf splitIdx st data =
      ({ st with feature_columns := available_features },
        TrainResult.error msgInsufficientData) := by
  have havail :
      ¬ (PREDICTION_FEATURES.filter (fun c => tableColumns.contains c)) = [] := by
    decide
  have hlen :
      (create_delay_labels (prepare_features data)).length =
        data.tasks.length := by
    simp [create_delay_labels, prepare_features, mergedRows]
  simp only [train_models]
  rw [if_neg havail, if_pos (by simpa only [List.length_map, hlen] using h)]
  rfl

/-- Witness for `C6_insufficient_data_amended` at the concrete 1-row
dataset and initial state. -/
theorem C6_insufficient_data_amended_witness :
    train_models (fun _ v => v) (fun _ => ([], [])) initState dataC1 =
      ({ initState with feature_columns := available_features },
        TrainResult.error msgInsufficientData) :=
  C6_insufficient_data_amended _ _ _ _ (by decide)

/-- Claim C7 — invoked before any successful train (`is_trained = false`),
`predict_task_delay` returns the structured not-trained error dictionary,
raises nothing, and leaves the state alone.  Confirmed. -/
theorem C7_not_trained (stf : List (List ℚ) → List ℚ → List ℚ)
    (reg : List ℚ → ℚ) (cls : List ℚ → DelayCategory)
    (clsProba : List ℚ → List (DelayCategory × ℚ))
    (st : TrainerState) (task_data : List (String × ℚ))
    (h : st.is_trained = false) :
    predict_task_delay stf reg cls clsProba st task_data =
      (st, PredictOutcome.error msgNotTrained) := by
  unfold predict_task_delay
  rw [h]

/-- Witness for `C7_not_trained` at the freshly initialized state. -/
theorem C7_not_trained_witness :
    predict_task_delay (fun _ v => v) (fun _ => 0)
      (fun _ => DelayCategory.no_delay) (fun _ => []) initState [] =
      (initState, PredictOutcome.error msgNotTrained) :=
  C7_not_trained _ _ _ _ _ _ rfl

/-- The returned risk score equals `clip(15 × returned delay, 0, 100)`:
clipping at 0 absorbs the difference between the raw regressor output and
its clamped-at-0 published value. -/
theorem clip15_eq (raw : ℚ) :
    min (max (raw * 15) 0) 100 = clip (15 * max 0 raw) 0 100 := by
  unfold clip
  rcases le_total raw 0 with h0 | h0
  · have h1 : raw * 15 ≤ 0 := mul_nonpos_of_nonpos_of_nonneg h0 (by norm_num)
    rw [max_eq_left h0, max_eq_right h1]
    norm_num
  · rw [max_eq_right h0, mul_comm raw 15]

/-- Claim C8 — after a successful train (`is_trained = true`), every
prediction satisfies: `predicted_delay_days ≥ 0` and
`risk_score = clip(15 × predicted_delay_days, 0, 100)`, hence
`risk_score ∈ [0, 100]`.  The regressor's raw output is arbitrary (`reg`).
Confirmed. -/
theorem C8_prediction_bounds (stf : List (List ℚ) → List ℚ → List ℚ)
    (reg : List ℚ → ℚ) (cls : List ℚ → DelayCategory)
    (clsProba : List ℚ → List (DelayCategory × ℚ))
    (st : TrainerState) (task_data : List (String × ℚ))
    (h : st.is_trained = true) :
    ∃ p : Prediction,
      (predict_task_delay stf reg cls clsProba st task_data).2 =
        PredictOutcome.ok p ∧
      0 ≤ p.predicted_delay_days ∧
      p.risk_score = clip (15 * p.predicted_delay_days) 0 100 ∧
      0 ≤ p.risk_score ∧ p.risk_score ≤ 100 := by
  unfold predict_task_delay
  rw [h]
  exact ⟨_, rfl, le_max_left _ _, clip15_eq _,
    le_min (le_max_right _ _) (by norm_num), min_le_right _ _⟩

/-- Witness for `C8_prediction_bounds`: a concrete trained state with a
regressor that outputs a negative raw delay. -/
theorem C8_prediction_bounds_witness :
    ∃ p : Prediction,
      (predict_task_delay (fun _ v => v) (fun _ => -2)
        (fun _ => DelayCategory.no_delay) (fun _ => [])
        trainedState []).2 = PredictOutcome.ok p ∧
      0 ≤ p.predicted_delay_days ∧
      p.risk_score = clip (15 * p.predicted_delay_days) 0 100 ∧
      0 ≤ p.risk_score ∧ p.risk_score ≤ 100 :=
  C8_prediction_bounds _ _ _ _ _ _ rfl

/-- Claim C9 — a prediction call never refits anything: the state (scaler
fit, fitted estimators, `feature_columns`, `is_trained`) passes through
unchanged, and the outcome reads the state only through `is_trained`,
`feature_columns` and the persisted `scaler_fit` (whose `transform` is
applied via `stf`; `fit` is never invoked).  Confirmed. -/
theorem C9_predict_frame (stf : List (List ℚ) → List ℚ → List ℚ)
    (reg : List ℚ → ℚ) (cls : List ℚ → DelayCategory)
    (clsProba : List ℚ → List (DelayCategory × ℚ))
    (st : TrainerState) (task_data : List (String × ℚ)) :
    (predict_task_delay stf reg cls clsProba st task_data).1 = st ∧
    (∀ st2 : TrainerState,
      st2.is_trained = st.is_trained →
      st2.feature_columns = st.feature_columns →
      st2.scaler_fit = st.scaler_fit →
      (predict_task_delay stf reg cls clsProba st2 task_data).2 =
        (predict_task_delay stf reg cls clsProba st task_data).2) := by
  constructor
  · unfold predict_task_delay
    cases h : st.is_trained <;> rfl
  · intro st2 h1 h2 h3
    unfold predict_task_delay
    rw [h1, h2, h3]
    cases hb : st.is_trained <;> rfl

/-- Claim C10 — whenever `train_models` succeeds, the selected feature set
(both the `features_used` it reports and the `feature_columns` it stores)
contains `risk_score`, the column `create_delay_labels` computes from
`delay_days`, the regression target; and at prediction time a selected
feature absent from both the input dictionary and the literal
default-value table — as `risk_score` is — is filled with 0.
Confirmed (this is the target-leakage wiring the claim describes). -/
theorem C10_risk_score_leakage (stf : List (List ℚ) → List ℚ → List ℚ)
    (splitIdx : Nat → List Nat × List Nat)
    (st : TrainerState) (data : Dataset)
    (n m : Nat) (fs : List String)
    (h : (train_models stf splitIdx st data).2 = TrainResult.ok n m fs) :
    riskScoreName ∈ fs ∧
    riskScoreName ∈
      TrainerState.feature_columns ((train_models stf splitIdx st data).1) ∧
    lookupQ riskScoreName default_values = none ∧
    (∀ td f, lookupQ f td = none → lookupQ f default_values = none →
      featureValue td f = 0) := by
  have hcols :
      TrainerState.feature_columns ((train_models stf splitIdx st data).1) =
        available_features := by
    simp only [train_models]
    split
    · rfl
    · split
      · rfl
      · rfl
  have hfs : fs = available_features := by
    simp only [train_models] at h
    split at h
    · simp at h
    · split at h
      · simp at h
      · simp only [TrainResult.ok.injEq] at h
        exact h.2.2.symm
  subst hfs
  refine ⟨by decide, ?_, by decide, ?_⟩
  · rw [hcols]
    decide
  · intro td f h1 h2
    unfold featureValue
    rw [h1, h2]
    rfl

/-- Witness for `C10_risk_score_leakage`: a concrete 10-row dataset on
which training succeeds. -/
theorem C10_risk_score_leakage_witness :
    riskScoreName ∈ available_features ∧
    featureValue [] riskScoreName = 0 := by
  obtain ⟨h1, h2, h3, h4⟩ :=
    C10_risk_score_leakage (fun _ v => v) (fun k => (List.range k, []))
      initState dataC10 10 0 available_features (by decide)
  exact ⟨h1, h4 [] riskScoreName rfl h3⟩
